import Mathlib

/-!
Verification of the path-containment engine and tail-streaming protocol of
`src/main.py` (a token-authenticated network file browser built on Tornado).

Paths are modelled as lists of components (an absolute path `/a/b` is
`["a", "b"]`, the filesystem root `/` is `[]`).  A client-supplied logical
path is a component list together with a flag saying whether the string
began with a separator (Python's `os.path.join` discards the left operand
when the right one is absolute).  Symbolic links are a finite association
list from absolute paths to absolute targets; `os.path.realpath` is
modelled componentwise with fuel, leaving the remainder unresolved when
fuel runs out (mirroring how the real function gives up on link cycles).
-/

set_option maxRecDepth 100000

/-- An absolute filesystem path, as its list of components. -/
abbrev FPath := List String

/-- A client-supplied path string: whether it began with a separator, and
its components. -/
structure LogicalPath where
  absFlag : Bool
  comps : List String
deriving DecidableEq, Repr

/-- The symbolic-link table of the filesystem: each entry maps an absolute
path to the absolute target of the symlink at that path. -/
structure Fsys where
  links : List (FPath × FPath)
deriving DecidableEq, Repr

/-- Look up the symlink target at a path, if that path is a symlink. -/
def linkLookup (fs : Fsys) (p : FPath) : Option FPath :=
  fs.links.lookup p

/-- `os.path.islink`: the path names a symbolic link. -/
def islink (fs : Fsys) (p : FPath) : Bool :=
  (linkLookup fs p).isSome

/-- A filesystem with no symbolic links. -/
def noLinks : Fsys := ⟨[]⟩

/-- `os.path.join root p` for a client string `p`: if `p` is absolute the
root is discarded, otherwise the components are appended. -/
def joinLP (root : FPath) (p : LogicalPath) : FPath :=
  if p.absFlag then p.comps else root ++ p.comps

/-- Componentwise canonicalization behind `os.path.realpath`: process the
remaining components left to right against the already-resolved prefix
`acc`; `.` is dropped, `..` removes the last resolved component, and a
component landing on a symlink restarts resolution from the link target.
`fuel` bounds the total number of steps; on exhaustion the remainder is
returned unresolved, as `realpath` does for link cycles. -/
def resolveComps (fs : Fsys) : Nat → FPath → List String → FPath
  | 0, acc, rest => acc ++ rest
  | _ + 1, acc, [] => acc
  | n + 1, acc, c :: rest =>
    if c = "." then resolveComps fs n acc rest
    else if c = ".." then resolveComps fs n acc.dropLast rest
    else
      match linkLookup fs (acc ++ [c]) with
      | none => resolveComps fs n (acc ++ [c]) rest
      | some tgt => resolveComps fs n [] (tgt ++ rest)

/-- `os.path.realpath` on an absolute component list. -/
def realpathF (fs : Fsys) (p : FPath) : FPath :=
  resolveComps fs ((p.length + 1) * 64) [] p

/-- `os.path.commonpath [p, q]` for two absolute paths: their longest
common component prefix. -/
def commonpath2 : FPath → FPath → FPath
  | [], _ => []
  | _ :: _, [] => []
  | a :: as, b :: bs => if a = b then a :: commonpath2 as bs else []

/-- The containment check every handler in `main.py` performs on an
already-canonicalized path `rp` (lines 48, 92, 152, 158, 197, 215):
`os.path.commonpath([rp, ROOT_DIR]) == ROOT_DIR and not os.path.islink(rp)`. -/
def pathAllowed (fs : Fsys) (root : FPath) (rp : FPath) : Bool :=
  (commonpath2 rp root == root) && !islink fs rp

/-- The full per-request resolution gate: canonicalize the join of the root
and the client path, then apply the containment check. -/
def resolveCheck (fs : Fsys) (root : FPath) (lp : LogicalPath) : Bool :=
  pathAllowed fs root (realpathF fs (joinLP root lp))

/-- Render a component path back to a display string, for comparison with
naive string-prefix tests. -/
def renderPath (p : FPath) : String :=
  "/" ++ String.intercalate "/" p

theorem commonpath2_eq_iff (p r : FPath) :
    commonpath2 p r = r ↔ r <+: p := by
  induction p generalizing r with
  | nil =>
    cases r <;> simp [commonpath2]
  | cons a as ih =>
    cases r with
    | nil => simp [commonpath2]
    | cons b bs =>
      by_cases hab : a = b
      · subst hab
        simp [commonpath2, List.cons_prefix_cons, ih bs]
      · constructor
        · intro h
          simp only [commonpath2, if_neg hab] at h
          exact absurd h.symm (by simp)
        · intro h
          rw [List.cons_prefix_cons] at h
          exact absurd h.1.symm hab

/-- C1: for every filesystem, root and client-supplied logical path, the
resolution gate accepts (letting the filesystem operation proceed) iff the
fully canonicalized join of root and logical path is root itself or a true
descendant of root, and that canonical final path is not a symbolic link.
Containment is decided on canonicalized component paths, not by naive
string prefix: the sibling directory `/root-evil` is a naive string-prefix
match for root `/root` yet is rejected by the gate. -/
theorem c1_resolution_containment :
    (∀ (fs : Fsys) (root : FPath) (lp : LogicalPath),
        resolveCheck fs root lp = true ↔
          root <+: realpathF fs (joinLP root lp) ∧
            islink fs (realpathF fs (joinLP root lp)) = false)
    ∧ (renderPath ["root"]).data.isPrefixOf (renderPath ["root-evil"]).data = true
    ∧ resolveCheck noLinks ["root"] ⟨true, ["root-evil"]⟩ = false := by
  refine ⟨fun fs root lp => ?_, by decide, by decide⟩
  simp [resolveCheck, pathAllowed, commonpath2_eq_iff, Bool.not_eq_true',
    Bool.and_eq_true]

/-- `os.path.dirname` applied to the client's logical path string: drop the
final component. -/
def dirnameLP (p : LogicalPath) : LogicalPath :=
  ⟨p.absFlag, p.comps.dropLast⟩

/-- The canonicalized rename source, `os.path.realpath(os.path.join(ROOT_DIR, path))`
(main.py line 213). -/
def renameSrc (fs : Fsys) (root : FPath) (path : LogicalPath) : FPath :=
  realpathF fs (joinLP root path)

/-- The canonicalized rename destination,
`os.path.realpath(os.path.join(ROOT_DIR, os.path.dirname(path), new_name))`
(main.py line 214): the source's parent directory joined with the new name. -/
def renameDst (fs : Fsys) (root : FPath) (path newName : LogicalPath) : FPath :=
  realpathF fs (joinLP (joinLP root (dirnameLP path)) newName)

/-- Outcome of the rename endpoint: either a 403, or the rename is
performed from `src` to `dst` followed by a redirect to the parent. -/
inductive RenameOutcome where
  | forbidden
  | renamed (src dst : FPath) (redirect : List String)
deriving DecidableEq, Repr

/-- `RenameHandler.post` (main.py lines 210-222): resolve source and
destination, require the containment check on both, then perform the
rename and redirect to the source's parent. -/
def renameHandler (fs : Fsys) (root : FPath) (path newName : LogicalPath) :
    RenameOutcome :=
  if pathAllowed fs root (renameSrc fs root path) &&
      pathAllowed fs root (renameDst fs root path newName) then
    .renamed (renameSrc fs root path) (renameDst fs root path newName)
      (dirnameLP path).comps
  else .forbidden

/-- C2 counterexample: with root `/r` and source `sub/f`, the newName
`../g` contains a path separator and moves the file out of its original
parent `sub`, yet the handler performs the rename (destination `/r/g`
passes the root-containment check); the destination's parent differs from
the source's parent, refuting the claim that such a rename always fails
containment. -/
theorem c2_rename_counterexample :
    renameHandler noLinks ["r"] ⟨false, ["sub", "f"]⟩ ⟨false, ["..", "g"]⟩
        = .renamed ["r", "sub", "f"] ["r", "g"] ["sub"]
      ∧ (["r", "g"] : FPath).dropLast ≠ (["r", "sub", "f"] : FPath).dropLast := by
  decide

/-- C2 amended: Rename builds its destination from the source's parent
directory plus newName and validates both endpoints independently — but
only for containment within root, not within the original parent: the
rename is performed exactly when both the resolved source and the resolved
destination are root or true descendants of root and neither is a symlink.
A newName whose resolved destination escapes root is refused, while a
newName with `../` segments that resolves inside root is accepted and may
relocate the file outside its original parent directory. -/
theorem c2_rename_amended (fs : Fsys) (root : FPath) (path newName : LogicalPath) :
    (renameHandler fs root path newName
        = .renamed (renameSrc fs root path) (renameDst fs root path newName)
            (dirnameLP path).comps
      ↔ root <+: renameSrc fs root path
          ∧ islink fs (renameSrc fs root path) = false
          ∧ root <+: renameDst fs root path newName
          ∧ islink fs (renameDst fs root path newName) = false)
    ∧ (¬ root <+: renameDst fs root path newName →
        renameHandler fs root path newName = .forbidden) := by
  constructor
  · unfold renameHandler
    by_cases h : pathAllowed fs root (renameSrc fs root path) &&
        pathAllowed fs root (renameDst fs root path newName)
    · rw [if_pos h]
      simp only [pathAllowed, Bool.and_eq_true, beq_iff_eq, Bool.not_eq_true',
        commonpath2_eq_iff] at h
      simp only [true_iff]
      exact ⟨h.1.1, h.1.2, h.2.1, h.2.2⟩
    · rw [if_neg h]
      simp only [pathAllowed, Bool.and_eq_true, beq_iff_eq, Bool.not_eq_true',
        commonpath2_eq_iff] at h
      constructor
      · intro hc; exact RenameOutcome.noConfusion hc
      · intro hc; exact absurd ⟨⟨hc.1, hc.2.1⟩, hc.2.2.1, hc.2.2.2⟩ h
  · intro hd
    unfold renameHandler
    rw [if_neg]
    intro h
    simp only [pathAllowed, Bool.and_eq_true, beq_iff_eq, Bool.not_eq_true',
      commonpath2_eq_iff] at h
    exact hd h.2.1

/-- C2 amended, witness: with root `/r`, source `f` and newName `../../x`,
the resolved destination `/x` escapes root and the handler refuses. -/
theorem c2_rename_amended_witness :
    ¬ (["r"] : FPath) <+: renameDst noLinks ["r"] ⟨false, ["f"]⟩ ⟨false, ["..", "..", "x"]⟩
    ∧ renameHandler noLinks ["r"] ⟨false, ["f"]⟩ ⟨false, ["..", "..", "x"]⟩
        = .forbidden := by
  refine ⟨by decide, ?_⟩
  exact (c2_rename_amended noLinks ["r"] ⟨false, ["f"]⟩ ⟨false, ["..", "..", "x"]⟩).2
    (by decide)

/-- One entry of a multipart upload batch: the client-supplied filename
(a relative path, for drag-and-drop batches) and the file body. -/
structure FileEntry where
  filename : LogicalPath
  body : String
deriving DecidableEq, Repr

/-- An HTTP-level response of one of the handlers. -/
inductive HResp where
  | okMsg (msg : String)
  | forbidden
  | forbiddenPath (rel : LogicalPath)
  | notFound
  | redirectTo (target : List String)
deriving DecidableEq, Repr

/-- The canonicalized write target of one batch entry:
`os.path.realpath(os.path.join(dir_real, relative_path))` (main.py line 178). -/
def entryTarget (fs : Fsys) (dirReal : FPath) (e : FileEntry) : FPath :=
  realpathF fs (joinLP dirReal e.filename)

/-- The per-entry containment check of the batch loop (line 179): the
commonpath of the resolved target and `dir_real` must be `dir_real`
itself, and the target must not be a symlink. -/
def entryOk (fs : Fsys) (dirReal : FPath) (e : FileEntry) : Bool :=
  pathAllowed fs dirReal (entryTarget fs dirReal e)

/-- The write performed for an accepted batch entry (lines 184-187). -/
def entryWrite (fs : Fsys) (dirReal : FPath) (e : FileEntry) : FPath × String :=
  (entryTarget fs dirReal e, e.body)

/-- The drag-and-drop batch loop (lines 174-187): process entries in
order; on the first entry failing the containment check stop with that
entry's relative path, leaving earlier writes in place and performing no
further writes. Returns the performed writes and the failing relative
path, if any. -/
def uploadLoop (fs : Fsys) (dirReal : FPath) :
    List FileEntry → List (FPath × String) × Option LogicalPath
  | [] => ([], none)
  | e :: rest =>
    if entryOk fs dirReal e then
      let r := uploadLoop fs dirReal rest
      (entryWrite fs dirReal e :: r.1, r.2)
    else ([], some e.filename)

/-- The already-resolved upload target directory,
`os.path.realpath(os.path.join(ROOT_DIR, directory))` (line 168). -/
def uploadDir (fs : Fsys) (root : FPath) (directory : LogicalPath) : FPath :=
  realpathF fs (joinLP root directory)

/-- The multi-file branch of `UploadHandler.post` (lines 167-190): check
the target directory for containment under root, then run the batch loop
relative to the resolved target directory. -/
def uploadMulti (fs : Fsys) (root : FPath) (directory : LogicalPath)
    (entries : List FileEntry) : HResp × List (FPath × String) :=
  if pathAllowed fs root (uploadDir fs root directory) then
    let r := uploadLoop fs (uploadDir fs root directory) entries
    match r.2 with
    | some rel => (.forbiddenPath rel, r.1)
    | none => (.okMsg "Upload successful", r.1)
  else (.forbidden, [])

/-- C3: every write performed by the batch loop targets a path contained
in the resolved target directory itself (equal to it or a true descendant,
never a symlink) — not merely in root; and concretely, a relativePath
`../e/x` for target directory `/r/d` under root `/r` resolves under root
but escapes the target directory, so the batch is refused with a forbidden
result naming that path, and nothing is written. -/
theorem c3_upload_target_containment :
    (∀ (fs : Fsys) (dirReal : FPath) (entries : List FileEntry)
        (w : FPath × String), w ∈ (uploadLoop fs dirReal entries).1 →
          dirReal <+: w.1 ∧ islink fs w.1 = false)
    ∧ uploadMulti noLinks ["r"] ⟨false, ["d"]⟩ [⟨⟨false, ["..", "e", "x"]⟩, "b"⟩]
        = (.forbiddenPath ⟨false, ["..", "e", "x"]⟩, [])
    ∧ (["r"] : FPath) <+: entryTarget noLinks ["r", "d"] ⟨⟨false, ["..", "e", "x"]⟩, "b"⟩
    ∧ ¬ (["r", "d"] : FPath) <+:
        entryTarget noLinks ["r", "d"] ⟨⟨false, ["..", "e", "x"]⟩, "b"⟩ := by
  refine ⟨fun fs dirReal entries w hw => ?_, by decide, by decide, by decide⟩
  induction entries with
  | nil => simp [uploadLoop] at hw
  | cons e rest ih =>
    by_cases he : entryOk fs dirReal e
    · rw [uploadLoop, if_pos he] at hw
      rcases List.mem_cons.mp hw with h | h
      · subst h
        have := he
        simp only [entryOk, pathAllowed, Bool.and_eq_true, beq_iff_eq,
          Bool.not_eq_true', commonpath2_eq_iff] at this
        exact this
      · exact ih h
    · rw [uploadLoop, if_neg he] at hw
      simp at hw

/-- C3 witness: a benign one-entry batch writes `/r/d/f`, and the general
part of the theorem instantiates to show that write is contained in the
target directory `/r/d`. -/
theorem c3_upload_target_containment_witness :
    (["r", "d"] : FPath) <+: (["r", "d", "f"] : FPath)
      ∧ islink noLinks ["r", "d", "f"] = false :=
  c3_upload_target_containment.1 noLinks ["r", "d"] [⟨⟨false, ["f"]⟩, "b"⟩]
    (["r", "d", "f"], "b") (by decide)

/-- The batch loop on a batch whose first containment failure is `bad`:
all of `pre` is written, the loop stops at `bad`, and nothing after it is
processed. -/
theorem uploadLoop_first_failure (fs : Fsys) (dirReal : FPath)
    (pre : List FileEntry) (bad : FileEntry) (post : List FileEntry)
    (hpre : ∀ e ∈ pre, entryOk fs dirReal e = true)
    (hbad : entryOk fs dirReal bad = false) :
    uploadLoop fs dirReal (pre ++ bad :: post)
      = (pre.map (entryWrite fs dirReal), some bad.filename) := by
  induction pre with
  | nil =>
    rw [List.nil_append, uploadLoop, if_neg (by simp [hbad])]
    simp
  | cons e rest ih =>
    have he : entryOk fs dirReal e = true := hpre e (List.mem_cons_self e rest)
    rw [List.cons_append, uploadLoop, if_pos he,
      ih (fun x hx => hpre x (List.mem_cons_of_mem e hx))]
    simp

/-- C7: a multi-file batch is processed sequentially and stops at the
first entry whose relative path fails the containment check: the response
is a forbidden result naming that entry's relative path, the writes
performed are exactly those of the earlier entries (which remain — no
rollback), and the failing entry and all later entries are never
written. -/
theorem c7_upload_partial_batch (fs : Fsys) (root : FPath)
    (directory : LogicalPath) (pre : List FileEntry) (bad : FileEntry)
    (post : List FileEntry)
    (hdir : pathAllowed fs root (uploadDir fs root directory) = true)
    (hpre : ∀ e ∈ pre, entryOk fs (uploadDir fs root directory) e = true)
    (hbad : entryOk fs (uploadDir fs root directory) bad = false) :
    uploadMulti fs root directory (pre ++ bad :: post)
      = (.forbiddenPath bad.filename,
          pre.map (entryWrite fs (uploadDir fs root directory))) := by
  unfold uploadMulti
  rw [if_pos hdir, uploadLoop_first_failure fs (uploadDir fs root directory)
    pre bad post hpre hbad]

/-- C7 witness: a three-entry batch whose second entry's relative path
`../z` escapes the target directory `/r/d` aborts at entry 2, reports that
path, and leaves exactly entry 1's file written. -/
theorem c7_upload_partial_batch_witness :
    uploadMulti noLinks ["r"] ⟨false, ["d"]⟩
        [⟨⟨false, ["a"]⟩, "1"⟩, ⟨⟨false, ["..", "z"]⟩, "2"⟩, ⟨⟨false, ["c"]⟩, "3"⟩]
      = (.forbiddenPath ⟨false, ["..", "z"]⟩, [(["r", "d", "a"], "1")]) := by
  have h := c7_upload_partial_batch noLinks ["r"] ⟨false, ["d"]⟩
    [⟨⟨false, ["a"]⟩, "1"⟩] ⟨⟨false, ["..", "z"]⟩, "2"⟩ [⟨⟨false, ["c"]⟩, "3"⟩]
    (by decide) (by decide) (by decide)
  simpa using h

/-- Python text-mode `readline` on content `c` from offset `pos`: return
the characters up to and including the next newline — or all remaining
characters when no newline follows, so a newline-less tail fragment is
returned as a line — together with the new offset. -/
def readlineFrom (c : List Char) (pos : Nat) : List Char × Nat :=
  let rest := c.drop pos
  let k := min (rest.findIdx (· = '\n') + 1) rest.length
  (rest.take k, pos + k)

/-- The `while line:` loop body of `send_new_lines`, with fuel: emit each
non-empty line `readline` returns and advance; stop at the first empty
read, returning the emitted lines and the final offset (which is also the
value of `where`, the seek target). -/
def tickLoop (c : List Char) : Nat → Nat → List (List Char) × Nat
  | 0, pos => ([], pos)
  | fuel + 1, pos =>
    let r := readlineFrom c pos
    if r.1 = [] then ([], pos)
    else
      let s := tickLoop c fuel r.2
      (r.1 :: s.1, s.2)

/-- One poll tick of `send_new_lines` (main.py lines 122-131) against the
current file content `c`, starting at offset `pos`. -/
def tickEmit (c : List Char) (pos : Nat) : List (List Char) × Nat :=
  tickLoop c (c.length + 1) pos

/-- C4: `send_new_lines` emits whatever `readline` returns, and Python's
`readline` returns a newline-less fragment at end-of-file as a line; so
with the file containing `hel` (no terminator) at the first tick, the tick
emits the fragment `hel` and advances the offset past it, and after the
line is completed to `hello\n` the next tick emits only the remainder
`lo\n`: two fragment messages, never one message equal to the full
line — the partial line is not re-read. -/
theorem c4_partial_line_emitted :
    tickEmit "hel".data 0 = ([['h', 'e', 'l']], 3)
    ∧ (['h', 'e', 'l'] : List Char).contains '\n' = false
    ∧ tickEmit "hello\n".data 3 = ([['l', 'o', '\n']], 6)
    ∧ ([['h', 'e', 'l']] ++ [['l', 'o', '\n']] : List (List Char))
        ≠ ["hello\n".data] := by
  decide

/-- Split file content into lines the way Python file iteration yields
them: every line keeps its trailing newline, and a final newline-less
fragment forms the last line. `acc` holds the reversed pending prefix of
the current line. -/
def linesAux : List Char → List Char → List (List Char)
  | acc, [] => if acc = [] then [] else [acc.reverse]
  | acc, ch :: rest =>
    if ch = '\n' then (acc.reverse ++ ['\n']) :: linesAux [] rest
    else linesAux (ch :: acc) rest

/-- The lines of a file's content, with original terminators. -/
def linesKE (c : List Char) : List (List Char) :=
  linesAux [] c

/-- `deque(f, 100)` keeps the last at-most-`n` elements. -/
def lastN (n : Nat) (l : List (List Char)) : List (List Char) :=
  l.drop (l.length - n)

/-- The backfill message of `FileStreamHandler.open` (lines 102-107): the
concatenation of the last at-most-100 lines of the file. -/
def backfillMsg (c : List Char) : List Char :=
  (lastN 100 (linesKE c)).flatten

/-- The messages sent during backfill: the single joined message when it
is non-empty, nothing otherwise (line 106). -/
def backfillMsgs (c : List Char) : List (List Char) :=
  if backfillMsg c = [] then [] else [backfillMsg c]

/-- The streaming read cursor right after backfill:
`self.file.seek(0, os.SEEK_END)` (line 113), i.e. end-of-file. -/
def streamStart (c : List Char) : Nat :=
  c.length

theorem linesAux_flatten (rest acc : List Char) :
    (linesAux acc rest).flatten = acc.reverse ++ rest := by
  induction rest generalizing acc with
  | nil => by_cases h : acc = [] <;> simp [linesAux, h]
  | cons ch rest ih =>
    by_cases h : ch = '\n'
    · subst h; simp [linesAux, ih]
    · simp [linesAux, h, ih]

theorem linesKE_flatten (c : List Char) : (linesKE c).flatten = c := by
  simpa using linesAux_flatten c []

/-- C5: the backfill phase captures at most the last 100 lines (for a
file with exactly 150 lines, precisely the lines after the first 50),
sends at most one initial message, that message is a suffix of the file's
content (original order and original terminators preserved), and the
streaming cursor is then positioned at end-of-file. -/
theorem c5_backfill_last_lines (c : List Char) :
    (lastN 100 (linesKE c)).length ≤ 100
    ∧ (backfillMsgs c).length ≤ 1
    ∧ ((linesKE c).length = 150 →
        lastN 100 (linesKE c) = (linesKE c).drop 50
          ∧ backfillMsg c = ((linesKE c).drop 50).flatten)
    ∧ backfillMsg c <:+ c
    ∧ streamStart c = c.length := by
  refine ⟨?_, ?_, ?_, ?_, rfl⟩
  · simp only [lastN, List.length_drop]
    omega
  · unfold backfillMsgs
    by_cases h : backfillMsg c = [] <;> simp [h]
  · intro h
    have h1 : lastN 100 (linesKE c) = (linesKE c).drop 50 := by
      unfold lastN; rw [h]
    exact ⟨h1, by unfold backfillMsg; rw [h1]⟩
  · refine ⟨((linesKE c).take ((linesKE c).length - 100)).flatten, ?_⟩
    rw [backfillMsg, lastN, ← List.flatten_append, List.take_append_drop,
      linesKE_flatten]

/-- A 150-line file: 150 copies of the line `x\n`. -/
def sample150 : List Char :=
  (List.replicate 150 ['x', '\n']).flatten

/-- C5 witness: on the concrete 150-line file, the backfill message is
exactly the concatenation of the last 100 lines, and the cursor lands at
end-of-file (offset 300). -/
theorem c5_backfill_last_lines_witness :
    (linesKE sample150).length = 150
    ∧ lastN 100 (linesKE sample150) = (linesKE sample150).drop 50
    ∧ backfillMsg sample150 = ((linesKE sample150).drop 50).flatten
    ∧ streamStart sample150 = 300 :=
  ⟨by decide,
    ((c5_backfill_last_lines sample150).2.2.1 (by decide)).1,
    ((c5_backfill_last_lines sample150).2.2.1 (by decide)).2,
    by decide⟩

/-- Per-session tail state: the `running` flag, whether the periodic poll
callback is scheduled, whether the read handle is open, and the read
offset. -/
structure TailState where
  running : Bool
  periodicActive : Bool
  fileOpen : Bool
  pos : Nat
deriving DecidableEq, Repr

/-- Outcome of one read attempt on the underlying handle. -/
inductive ReadRes where
  | ok (content : List Char)
  | ioError
deriving DecidableEq, Repr

/-- Outcome of one invocation of `send_new_lines`: either it returns with
the emitted messages and updated state, or an exception escapes it,
leaving the state as recorded. -/
inductive TickOutcome where
  | done (msgs : List (List Char)) (st : TailState)
  | raised (st : TailState)
deriving DecidableEq, Repr

/-- `send_new_lines` (lines 122-131) with the read outcome of the handle
made explicit: when `running` is false nothing happens; otherwise there is
no try/except in the method, so a failing read raises out of it without
any session field being touched; a successful read emits the new lines
and advances the offset. -/
def sendNewLines (st : TailState) (r : ReadRes) : TickOutcome :=
  if st.running = false then .done [] st
  else
    match r with
    | .ioError => .raised st
    | .ok content => .done (tickEmit content st.pos).1
        { st with pos := (tickEmit content st.pos).2 }

/-- `on_close` (lines 133-138): clear the running flag, stop the periodic
callback, close the file handle. -/
def onClose (st : TailState) : TailState :=
  { st with running := false, periodicActive := false, fileOpen := false }

/-- The session is in the Closed state: poll loop halted and file handle
released. -/
def isClosedState (st : TailState) : Bool :=
  !st.running && !st.periodicActive && !st.fileOpen

/-- C6 counterexample: in a running session with the poll callback active
and the handle open, a failing read makes `send_new_lines` raise with the
state unchanged — still running, poll callback still scheduled, handle
still open — so the session has not transitioned to Closed as the claim
states. -/
theorem c6_ioerror_counterexample :
    sendNewLines ⟨true, true, true, 0⟩ .ioError = .raised ⟨true, true, true, 0⟩
    ∧ isClosedState ⟨true, true, true, 0⟩ = false := by
  decide

/-- C6 amended: an IOError during a streaming tick propagates out of
`send_new_lines` uncaught and leaves every session field unchanged — the
session does not transition itself to Closed and the poll loop is not
halted by the error. The Closed state is reached only through `on_close`
(invoked when the websocket closes), which does halt the poll loop and
release the handle, and is idempotent. -/
theorem c6_ioerror_amended (st : TailState) (h : st.running = true) :
    sendNewLines st .ioError = .raised st
    ∧ isClosedState (onClose st) = true
    ∧ onClose (onClose st) = onClose st := by
  refine ⟨?_, by simp [isClosedState, onClose], rfl⟩
  simp [sendNewLines, h]

/-- C6 amended, witness: at a concrete running session state. -/
theorem c6_ioerror_amended_witness :
    sendNewLines ⟨true, true, true, 7⟩ .ioError = .raised ⟨true, true, true, 7⟩
    ∧ isClosedState (onClose ⟨true, true, true, 7⟩) = true
    ∧ onClose (onClose ⟨true, true, true, 7⟩) = onClose ⟨true, true, true, 7⟩ :=
  c6_ioerror_amended ⟨true, true, true, 7⟩ rfl

/-- What `os.path.isdir` / `os.path.isfile` report at a path: a directory,
a regular file, or nothing (the path does not exist). -/
inductive FKind where
  | dirK
  | fileK
  | absent
deriving DecidableEq, Repr

/-- A filesystem view: the symlink table together with the node kind at
each absolute path (unlisted paths do not exist). -/
structure World where
  fsys : Fsys
  kinds : List (FPath × FKind)
deriving DecidableEq, Repr

/-- The node kind at a path. -/
def kindAt (w : World) (p : FPath) : FKind :=
  (w.kinds.lookup p).getD .absent

/-- The filesystem mutation performed by the delete endpoint. -/
inductive DeleteAction where
  | rmtreeRec (p : FPath)
  | removeFile (p : FPath)
  | noop
deriving DecidableEq, Repr

/-- The canonicalized delete target,
`os.path.realpath(os.path.join(ROOT_DIR, path))` (main.py line 196). -/
def deleteTarget (w : World) (root : FPath) (path : LogicalPath) : FPath :=
  realpathF w.fsys (joinLP root path)

/-- `DeleteHandler.post` (lines 194-206): containment check, then
`shutil.rmtree` on a directory, `os.remove` on a regular file, and nothing
at all when the target does not exist — followed by an unconditional
redirect to the parent of the logical path. -/
def deleteHandler (w : World) (root : FPath) (path : LogicalPath) :
    HResp × DeleteAction :=
  if pathAllowed w.fsys root (deleteTarget w root path) then
    match kindAt w (deleteTarget w root path) with
    | .dirK => (.redirectTo path.comps.dropLast, .rmtreeRec (deleteTarget w root path))
    | .fileK => (.redirectTo path.comps.dropLast, .removeFile (deleteTarget w root path))
    | .absent => (.redirectTo path.comps.dropLast, .noop)
  else (.forbidden, .noop)

/-- C8 counterexample: deleting `ghost` under root `/r` in a world where
no such node exists yields a redirect response — indistinguishable from
success — and not a not-found result; nothing is removed. The handler has
no 404 branch. -/
theorem c8_delete_counterexample :
    deleteHandler ⟨noLinks, []⟩ ["r"] ⟨false, ["ghost"]⟩ = (.redirectTo [], .noop)
    ∧ (HResp.redirectTo [] ≠ HResp.notFound) := by
  decide

/-- C8 amended: for any contained target, delete recursively removes a
directory, removes just the file for a regular file, and for a nonexistent
target performs no removal and still redirects to the parent as on
success — it never returns a not-found result. -/
theorem c8_delete_amended (w : World) (root : FPath) (path : LogicalPath)
    (h : pathAllowed w.fsys root (deleteTarget w root path) = true) :
    (kindAt w (deleteTarget w root path) = .dirK →
      deleteHandler w root path
        = (.redirectTo path.comps.dropLast, .rmtreeRec (deleteTarget w root path)))
    ∧ (kindAt w (deleteTarget w root path) = .fileK →
      deleteHandler w root path
        = (.redirectTo path.comps.dropLast, .removeFile (deleteTarget w root path)))
    ∧ (kindAt w (deleteTarget w root path) = .absent →
      deleteHandler w root path = (.redirectTo path.comps.dropLast, .noop)
        ∧ (deleteHandler w root path).1 ≠ HResp.notFound) := by
  refine ⟨fun hk => ?_, fun hk => ?_, fun hk => ?_⟩
  · rw [deleteHandler, if_pos h, hk]
  · rw [deleteHandler, if_pos h, hk]
  · rw [deleteHandler, if_pos h, hk]
    exact ⟨rfl, by simp⟩

/-- C8 amended, witness: deleting the existing directory `/r/d` under
root `/r` removes it recursively and redirects. -/
theorem c8_delete_amended_witness :
    deleteHandler ⟨noLinks, [(["r", "d"], .dirK)]⟩ ["r"] ⟨false, ["d"]⟩
      = (.redirectTo [], .rmtreeRec ["r", "d"]) :=
  (c8_delete_amended ⟨noLinks, [(["r", "d"], .dirK)]⟩ ["r"] ⟨false, ["d"]⟩
    (by decide)).1 (by decide)

/-- `os.path.basename` of a resolved component path. -/
def basenameF (p : FPath) : String :=
  p.getLastD ""

/-- The Content-Disposition header value built at main.py line 67: plain
f-string interpolation of the file's base name between two literal double
quotes, with no escaping and no rejection of any character. -/
def contentDispositionValue (filename : String) : String :=
  "attachment; filename=\"" ++ filename ++ "\""

/-- The response headers of download mode (lines 65-67). -/
def downloadHeaders (rp : FPath) : List (String × String) :=
  [("Content-Type", "application/octet-stream"),
   ("Content-Disposition", contentDispositionValue (basenameF rp))]

/-- A header value contains none of the CR/LF characters that enable
header injection. -/
def headerValueCRLFFree (s : String) : Bool :=
  !s.data.any (fun c => c == '\r' || c == '\n')

/-- C9 counterexample: a file whose base name contains a carriage return
is served with a Content-Disposition value that still contains that CR —
nothing was rejected or escaped — and a base name containing a double
quote is interpolated verbatim, producing a malformed quoted value. -/
theorem c9_disposition_counterexample :
    (downloadHeaders ["r", "a\rb"]).lookup "Content-Disposition"
        = some (contentDispositionValue "a\rb")
    ∧ headerValueCRLFFree (contentDispositionValue "a\rb") = false
    ∧ contentDispositionValue "a\"b" = "attachment; filename=\"a\"b\"" := by
  decide

/-- C9 amended: download mode carries a Content-Disposition attachment
header whose filename value is the file's base name interpolated verbatim
between double quotes, with no escaping or rejection; consequently the
header value is CR/LF-free exactly when the base name itself is. -/
theorem c9_disposition_amended (rp : FPath) :
    (downloadHeaders rp).lookup "Content-Disposition"
        = some (contentDispositionValue (basenameF rp))
    ∧ ∀ name : String,
        headerValueCRLFFree (contentDispositionValue name)
          = headerValueCRLFFree name := by
  refine ⟨rfl, fun name => ?_⟩
  simp [contentDispositionValue, headerValueCRLFFree, String.data_append]

/-- Tornado's signed-cookie machinery, abstracted: a signing and a
verification function parameterized by the application's `cookie_secret`,
with the round-trip property that `create_signed_value` and
`decode_signed_value` satisfy. -/
structure CookieScheme where
  sign : String → String → String
  verify : String → String → Option String
  verify_sign : ∀ secret value, verify secret (sign secret value) = some value

/-- The application settings built in `main()` (lines 260-263). -/
structure AppSettings where
  cookieSecret : String
deriving DecidableEq, Repr

/-- `main()` wires `cookie_secret` to be the access token itself
(line 261). -/
def mkSettings (token : String) : AppSettings :=
  ⟨token⟩

/-- `BaseHandler.get_current_user` (lines 26-27): decode the presented
`user` secure cookie against the application's cookie_secret. -/
def getCurrentUser (cs : CookieScheme) (s : AppSettings) (cookie : String) :
    Option String :=
  cs.verify s.cookieSecret cookie

/-- `LoginHandler.post` (lines 36-42): on an exact token match, set the
signed `user` cookie to the fixed identity `authenticated`. -/
def loginPost (cs : CookieScheme) (token presented : String) : Option String :=
  if presented = token then some (cs.sign token "authenticated") else none

/-- A degenerate but lawful signed-cookie scheme, showing the abstraction
is inhabited. -/
def plainCookieScheme : CookieScheme :=
  ⟨fun _ v => v, fun _ c => some c, fun _ _ => rfl⟩

/-- C10: the signing secret of session credentials is the access token
itself — the application settings carry `cookie_secret = ACCESS_TOKEN` —
so credential validation is exactly verification against the token: two
server instances built from the same token accept exactly the same
credentials, and anyone knowing the token can construct, without calling
login, a credential that validates to the authenticated identity and
coincides with the cookie login itself would set. -/
theorem c10_cookie_secret_is_token (cs : CookieScheme) (token cookie : String) :
    getCurrentUser cs (mkSettings token) cookie = cs.verify token cookie
    ∧ (∀ t₂ : String, token = t₂ →
        getCurrentUser cs (mkSettings token) cookie
          = getCurrentUser cs (mkSettings t₂) cookie)
    ∧ getCurrentUser cs (mkSettings token) (cs.sign token "authenticated")
        = some "authenticated"
    ∧ loginPost cs token token = some (cs.sign token "authenticated") := by
  refine ⟨rfl, fun t₂ ht => by rw [ht], ?_, by simp [loginPost]⟩
  exact cs.verify_sign token "authenticated"

/-- C10 witness: instantiated at the inhabiting scheme and a concrete
token. -/
theorem c10_cookie_secret_is_token_witness :
    getCurrentUser plainCookieScheme (mkSettings "tok") "cred"
        = plainCookieScheme.verify "tok" "cred"
    ∧ getCurrentUser plainCookieScheme (mkSettings "tok") "cred"
        = getCurrentUser plainCookieScheme (mkSettings "tok") "cred"
    ∧ getCurrentUser plainCookieScheme (mkSettings "tok")
          (plainCookieScheme.sign "tok" "authenticated")
        = some "authenticated" :=
  ⟨(c10_cookie_secret_is_token plainCookieScheme "tok" "cred").1,
    (c10_cookie_secret_is_token plainCookieScheme "tok" "cred").2.1 "tok" rfl,
    (c10_cookie_secret_is_token plainCookieScheme "tok" "cred").2.2.1⟩
